import Mathlib

/-
  Verification of the ESP32 local-area-network scanner
  (src/main/esp32-local-area-network-scanner.c) against its
  natural-language specification.

  The C program is shallowly embedded below: the two pure helpers
  (authmode_to_str, ssid_or_none) become Lean functions on Nat-coded
  enum values and byte lists; the printf-formatted output lines become
  Lean string builders; the body of the app_main loop becomes an
  explicit event trace (driver calls, allocations, log lines, delays)
  parameterised by what the driver returns.
-/

namespace WifiScan

/-- Enumeration values of wifi_auth_mode_t as numbered in the ESP-IDF
headers: OPEN=0, WEP=1, WPA_PSK=2, WPA2_PSK=3, WPA_WPA2_PSK=4,
WPA2_ENTERPRISE=5, WPA3_PSK=6, WPA2_WPA3_PSK=7; values 8 and above are
outside the recognized set of the switch in authmode_to_str. -/
def authmode_to_str (m : Nat) : String :=
  match m with
  | 0 => "OPEN"
  | 1 => "WEP"
  | 2 => "WPA"
  | 3 => "WPA2"
  | 4 => "WPA/WPA2"
  | 5 => "WPA2-E"
  | 6 => "WPA3"
  | 7 => "WPA2/3"
  | _ + 8 => "UNK"

/-- The bytes of the placeholder string "NONE" returned by ssid_or_none
for hidden networks. -/
def noneBytes : List Nat := [78, 79, 78, 69]

/-- Reading a NUL-terminated C byte buffer as a string: the bytes
strictly before the first zero byte. -/
def cString (buf : List Nat) : List Nat := buf.takeWhile (fun b => b ≠ 0)

/-- Embedding of `ssid_or_none` (src line 48-50):
`return (ssid && ssid[0] != '\0') ? (const char*)ssid : "NONE";`.
The pointer argument is `Option (List Nat)`: `none` models a NULL
pointer, `some buf` models a pointer to the byte buffer `buf`.  The
returned display string is the C-string content of the buffer. -/
def ssid_or_none (ssid : Option (List Nat)) : List Nat :=
  match ssid with
  | none => noneBytes
  | some buf =>
    match buf.head? with
    | some b => if b ≠ 0 then cString buf else noneBytes
    | none => noneBytes

/-- Embedding of the header line of line 98:
`"Found %u network%s", ap_num, (ap_num == 1 ? "" : "s")`. -/
def headerLine (n : Nat) : String :=
  "Found " ++ toString n ++ " network" ++ (if n = 1 then "" else "s")

/-- printf right-justification to width `w` with spaces, as in `%2d`,
`%4d`, `%8s`: pad on the left (no-op when the string is already wide
enough, as printf never truncates). -/
def padLeftTo (w : Nat) (s : String) : String :=
  String.mk (List.replicate (w - s.length) ' ') ++ s

/-- printf left-justification to width `w` with spaces, as in `%-32s`,
`%-8s`: pad on the right. -/
def padRightTo (w : Nat) (s : String) : String :=
  s ++ String.mk (List.replicate (w - s.length) ' ')

/-- Uppercase hexadecimal digit for a value below 16. -/
def hexDigit (n : Nat) : Char :=
  if n < 10 then Char.ofNat (48 + n) else Char.ofNat (55 + n)

/-- printf `%02X` rendering of one octet (a value below 256): exactly
two uppercase hexadecimal digits. -/
def hex2 (b : Nat) : String :=
  String.mk [hexDigit (b / 16 % 16), hexDigit (b % 16)]

/-- One `wifi_ap_record_t` as read by the loop: the 33-byte SSID buffer
(as a byte list), signed RSSI, primary channel, authmode enum value and
the 6-byte BSSID (as a byte list, entries below 256). -/
structure ApRecord where
  ssid : List Nat
  rssi : Int
  primary : Nat
  authmode : Nat
  bssid : List Nat
  deriving DecidableEq, Repr

/-- The display string for a record's SSID: the bytes returned by
ssid_or_none read as characters. -/
def ssidDisplay (r : ApRecord) : String :=
  String.mk ((ssid_or_none (some r.ssid)).map Char.ofNat)

/-- The BSSID rendering of line 110:
`%02X:%02X:%02X:%02X:%02X:%02X` applied to b[0]..b[5]. -/
def macString (b : List Nat) : String :=
  String.intercalate ":" ((List.range 6).map (fun i => hex2 (b.getD i 0)))

/-- Embedding of the per-record line of lines 110-116:
`"%2d | %-32s | %4d dBm | %4d | %-8s | %02X:%02X:%02X:%02X:%02X:%02X"`
applied to the index, the SSID display, RSSI, channel, auth label and
BSSID octets. -/
def formatRow (i : Nat) (r : ApRecord) : String :=
  padLeftTo 2 (toString i) ++ " | " ++
  padRightTo 32 (ssidDisplay r) ++ " | " ++
  padLeftTo 4 (toString r.rssi) ++ " dBm | " ++
  padLeftTo 4 (toString r.primary) ++ " | " ++
  padRightTo 8 (authmode_to_str r.authmode) ++ " | " ++
  macString r.bssid

/-- The rows emitted by the for-loop of lines 104-117: one formatted
line per record, indexed from 0, in driver order. -/
def reportRows (recs : List ApRecord) : List String :=
  recs.enum.map (fun p => formatRow p.1 p.2)

/-- The separator literal of lines 99, 102 and 122 of the source,
copied verbatim (92 dash characters). -/
def separatorLine : String :=
  "--------------------------------------------------------------------------------------------"

/-- Embedding of the column-header line of lines 100-101:
`" # | %-32s | %8s | %4s | %-8s | %s"` applied to
"SSID", "RSSI", "CH", "AUTH", "BSSID". -/
def columnHeader : String :=
  " # | " ++ padRightTo 32 "SSID" ++ " | " ++ padLeftTo 8 "RSSI" ++ " | " ++
  padLeftTo 4 "CH" ++ " | " ++ padRightTo 8 "AUTH" ++ " | " ++ "BSSID"

/-- Observable steps of one iteration of the while loop: driver calls,
heap events, emitted log lines and the task delay. -/
inductive Event where
  | scanStart
  | getApNum
  | alloc (n : Nat)
  | getRecords (n : Nat)
  | free
  | log (s : String)
  | delay (ms : Nat)
  deriving DecidableEq, Repr

/-- The event trace of one successful iteration of the while loop
(lines 87-124), given the record list the driver returns (`ap_num` is
its length).  `calloc`/`esp_wifi_scan_get_ap_records` run only when
`ap_num > 0` (line 93), and `free` runs only when `recs` is non-NULL
(line 119), i.e. exactly when the allocation happened. -/
def cycleEvents (aps : List ApRecord) : List Event :=
  let n := aps.length
  ([Event.scanStart, Event.getApNum] ++
   (if n > 0 then [Event.alloc n, Event.getRecords n] else [])) ++
  ([Event.log (headerLine n), Event.log separatorLine,
    Event.log columnHeader, Event.log separatorLine] ++
   ((reportRows aps).map Event.log ++
    ((if n > 0 then [Event.free] else []) ++
     [Event.log (separatorLine ++ "\n"), Event.delay 3000])))

/-- Result codes of the six ESP_ERROR_CHECK-guarded calls of the INIT
sequence (lines 67-75), in program order; 0 is ESP_OK. -/
structure InitResults where
  nvs_flash_init : Nat
  esp_netif_init : Nat
  esp_event_loop_create_default : Nat
  esp_wifi_init : Nat
  esp_wifi_set_mode : Nat
  esp_wifi_start : Nat
  deriving DecidableEq, Repr

/-- The INIT sequence: each checked call aborts the program on a
non-zero result (`ESP_ERROR_CHECK`), carrying that result; otherwise
control reaches the loop. -/
def runInit (r : InitResults) : Except Nat Unit :=
  if r.nvs_flash_init ≠ 0 then Except.error r.nvs_flash_init
  else if r.esp_netif_init ≠ 0 then Except.error r.esp_netif_init
  else if r.esp_event_loop_create_default ≠ 0 then Except.error r.esp_event_loop_create_default
  else if r.esp_wifi_init ≠ 0 then Except.error r.esp_wifi_init
  else if r.esp_wifi_set_mode ≠ 0 then Except.error r.esp_wifi_set_mode
  else if r.esp_wifi_start ≠ 0 then Except.error r.esp_wifi_start
  else Except.ok ()

/-- Result codes and data for the driver calls of one loop iteration:
error codes of `esp_wifi_scan_start`, `esp_wifi_scan_get_ap_num` and
`esp_wifi_scan_get_ap_records`, and the records delivered on success. -/
structure CycleDriver where
  scan_start : Nat
  get_ap_num : Nat
  get_ap_records : Nat
  aps : List ApRecord
  deriving Repr

/-- One loop iteration with a fallible driver: the events that happen
before the iteration either completes (`none`) or the program aborts
with the failing code (`some e`).  Each ESP_ERROR_CHECK aborts at once:
nothing is logged after a failure, nothing is retried. -/
def cycleRun (d : CycleDriver) : List Event × Option Nat :=
  if d.scan_start ≠ 0 then ([Event.scanStart], some d.scan_start)
  else if d.get_ap_num ≠ 0 then ([Event.scanStart, Event.getApNum], some d.get_ap_num)
  else if d.aps.length > 0 then
    if d.get_ap_records ≠ 0 then
      ([Event.scanStart, Event.getApNum, Event.alloc d.aps.length,
        Event.getRecords d.aps.length], some d.get_ap_records)
    else (cycleEvents d.aps, none)
  else (cycleEvents d.aps, none)

/-- The trace of the whole program run for `n` loop iterations, where
`drivers i` is the record list the driver returns in iteration `i`:
if any INIT call fails the program aborts before the loop and no loop
event ever happens; otherwise the iterations run in order. -/
def appTrace (r : InitResults) (n : Nat) (drivers : Nat → List ApRecord) : List Event :=
  match runInit r with
  | Except.error _ => []
  | Except.ok _ => ((List.range n).map (fun i => cycleEvents (drivers i))).flatten

/-- Whether an event is a suspension of the task (the `vTaskDelay`). -/
def isDelay (e : Event) : Bool :=
  match e with
  | Event.delay _ => true
  | _ => false

/-- Synthetic record of the spec's section 8: SSID "TestNet",
RSSI -40, channel 6, WPA2, address 11:22:33:44:55:66. -/
def testRec1 : ApRecord :=
  { ssid := [84, 101, 115, 116, 78, 101, 116], rssi := -40, primary := 6,
    authmode := 3, bssid := [0x11, 0x22, 0x33, 0x44, 0x55, 0x66] }

/-- Synthetic record of the spec's section 8: hidden (empty SSID),
RSSI -80, channel 11, open, address AA:BB:CC:DD:EE:FF. -/
def testRec2 : ApRecord :=
  { ssid := [0], rssi := -80, primary := 11,
    authmode := 0, bssid := [0xAA, 0xBB, 0xCC, 0xDD, 0xEE, 0xFF] }

theorem count_map_log_eq_zero (l : List String) (e : Event)
    (h : ∀ s, Event.log s ≠ e) : (l.map Event.log).count e = 0 := by
  rw [List.count_eq_zero]
  intro hmem
  rcases List.mem_map.1 hmem with ⟨s, _, hs⟩
  exact h s hs

theorem countP_isDelay_map_log (l : List String) :
    (l.map Event.log).countP isDelay = 0 := by
  rw [List.countP_eq_zero]
  intro a ha
  rcases List.mem_map.1 ha with ⟨s, _, rfl⟩
  simp [isDelay]

theorem cString_all_nonzero (l : List Nat) (h : 0 ∉ l) : cString l = l := by
  induction l with
  | nil => rfl
  | cons x xs ih =>
    have hx : x ≠ 0 := fun hx => h (hx ▸ List.mem_cons_self x xs)
    have hxs : 0 ∉ xs := fun hm => h (List.mem_cons_of_mem x hm)
    simp only [cString, List.takeWhile_cons] at ih ⊢
    simp [hx]
    intro y hy hy0
    exact hxs (hy0 ▸ hy)

theorem cycleEvents_pos (aps : List ApRecord) (h : 0 < aps.length) :
    cycleEvents aps =
      [Event.scanStart, Event.getApNum,
       Event.alloc aps.length, Event.getRecords aps.length,
       Event.log (headerLine aps.length), Event.log separatorLine,
       Event.log columnHeader, Event.log separatorLine] ++
      (reportRows aps).map Event.log ++
      [Event.free, Event.log (separatorLine ++ "\n"), Event.delay 3000] := by
  simp [cycleEvents, h]

theorem cycleEvents_zero :
    cycleEvents [] =
      [Event.scanStart, Event.getApNum,
       Event.log (headerLine 0), Event.log separatorLine,
       Event.log columnHeader, Event.log separatorLine,
       Event.log (separatorLine ++ "\n"), Event.delay 3000] := rfl

/-- Claim C1: the authentication-mode label function is total: each of
the eight recognized enum values (0..7) maps to its exact fixed display
string, and every value outside the recognized set (8 and above) maps
to "UNK"; as a pure Lean function it has no side effects and cannot
fail. -/
theorem authmode_label_spec :
    authmode_to_str 0 = "OPEN" ∧ authmode_to_str 1 = "WEP" ∧
    authmode_to_str 2 = "WPA" ∧ authmode_to_str 3 = "WPA2" ∧
    authmode_to_str 4 = "WPA/WPA2" ∧ authmode_to_str 5 = "WPA2-E" ∧
    authmode_to_str 6 = "WPA3" ∧ authmode_to_str 7 = "WPA2/3" ∧
    ∀ m : Nat, 8 ≤ m → authmode_to_str m = "UNK" := by
  refine ⟨rfl, rfl, rfl, rfl, rfl, rfl, rfl, rfl, ?_⟩
  intro m hm
  obtain ⟨k, rfl⟩ : ∃ k, m = k + 8 := ⟨m - 8, by omega⟩
  rfl

/-- Witness for C1: the unrecognized value 42 maps to "UNK". -/
theorem authmode_label_spec_witness :
    (8 : Nat) ≤ 42 ∧ authmode_to_str 42 = "UNK" :=
  ⟨by decide, authmode_label_spec.2.2.2.2.2.2.2.2 42 (by decide)⟩

/-- Claim C2: ssid_or_none returns the "NONE" placeholder for every
buffer whose first byte is zero (including the empty buffer), and for a
buffer with a non-zero first byte it returns the buffer's content (its
C-string reading; verbatim, i.e. the whole buffer, whenever the buffer
holds no zero byte); it is a total function over byte buffers. -/
theorem ssid_display_spec :
    (∀ buf : List Nat, buf.head? = some 0 ∨ buf = [] →
      ssid_or_none (some buf) = noneBytes) ∧
    (∀ buf : List Nat, ∀ b, buf.head? = some b → b ≠ 0 →
      ssid_or_none (some buf) = cString buf ∧
      (0 ∉ buf → ssid_or_none (some buf) = buf)) := by
  constructor
  · intro buf h
    cases buf with
    | nil => rfl
    | cons x xs =>
      rcases h with h | h
      · simp only [List.head?] at h
        injection h with h
        subst h
        simp [ssid_or_none]
      · cases h
  · intro buf b hb hne
    cases buf with
    | nil => cases hb
    | cons x xs =>
      simp only [List.head?] at hb
      injection hb with hb
      subst hb
      have h1 : ssid_or_none (some (x :: xs)) = cString (x :: xs) := by
        simp [ssid_or_none, hne]
      exact ⟨h1, fun hnm => h1.trans (cString_all_nonzero _ hnm)⟩

/-- Witness for C2: the buffer starting with a zero byte displays as
"NONE", and a NUL-free buffer displays verbatim. -/
theorem ssid_display_spec_witness :
    ssid_or_none (some [0, 65]) = noneBytes ∧
    ssid_or_none (some [72, 105]) = [72, 105] :=
  ⟨ssid_display_spec.1 [0, 65] (Or.inl rfl),
   (ssid_display_spec.2 [72, 105] 72 rfl (by decide)).2 (by decide)⟩

/-- Claim C3: the header line reads "Found 1 network" (singular) for a
count of exactly 1, and "Found N networks" (plural) for every other
count, 0 included. -/
theorem found_header_plural :
    headerLine 1 = "Found 1 network" ∧
    ∀ n : Nat, n ≠ 1 → headerLine n = "Found " ++ toString n ++ " networks" := by
  refine ⟨rfl, ?_⟩
  intro n hn
  simp only [headerLine, if_neg hn]
  rw [String.append_assoc ("Found " ++ toString n) " network" "s"]
  rfl

/-- Witness for C3: the zero count is pluralized. -/
theorem found_header_plural_witness :
    headerLine 0 = "Found " ++ toString (0 : Nat) ++ " networks" :=
  found_header_plural.2 0 (by decide)

/-- Claim C4: the REPORTING phase emits exactly one formatted row per
record (same length, i-th row built from the i-th record, no
re-sorting), where each row carries the zero-based index, the SSID
display via ssid_or_none, the RSSI with the "dBm" suffix, the channel,
the label via authmode_to_str, and the BSSID as six colon-separated
two-digit uppercase hex octets; on the spec's synthetic two-record
list the emitted rows are exactly the two literal template lines, in
input order, with "NONE" for the hidden SSID. -/
theorem report_rows_spec :
    (∀ recs : List ApRecord, (reportRows recs).length = recs.length) ∧
    (∀ recs : List ApRecord, ∀ i : Nat,
      (reportRows recs)[i]? = (recs[i]?).map (formatRow i)) ∧
    (∀ i : Nat, ∀ r : ApRecord,
      formatRow i r =
        padLeftTo 2 (toString i) ++ " | " ++
        padRightTo 32 (String.mk ((ssid_or_none (some r.ssid)).map Char.ofNat)) ++ " | " ++
        padLeftTo 4 (toString r.rssi) ++ " dBm | " ++
        padLeftTo 4 (toString r.primary) ++ " | " ++
        padRightTo 8 (authmode_to_str r.authmode) ++ " | " ++
        String.intercalate ":" ((List.range 6).map (fun k => hex2 (r.bssid.getD k 0)))) ∧
    reportRows [testRec1, testRec2] =
      [" 0 | TestNet                          |  -40 dBm |    6 | WPA2     | 11:22:33:44:55:66",
       " 1 | NONE                             |  -80 dBm |   11 | OPEN     | AA:BB:CC:DD:EE:FF"] := by
  refine ⟨?_, ?_, ?_, ?_⟩
  · intro recs
    simp [reportRows]
  · intro recs i
    simp only [reportRows, List.getElem?_map, List.getElem?_enum]
    cases recs[i]? <;> rfl
  · intro i r
    rfl
  · rfl

/-- Counterexample for Claim C5: in the cycle whose driver reports zero
networks (`recs` stays NULL, line 92-96, so `if (recs) free(recs)` on
line 119 does nothing), there is no buffer release at all, refuting
"each cycle performs ... exactly one buffer release". -/
theorem free_per_cycle_counterexample :
    (cycleEvents []).count Event.free = 0 ∧
    ¬ (cycleEvents []).count Event.free = 1 := by decide

/-- Claim C5 (amended): each cycle performs exactly one scan-driver
invocation; in a cycle with a positive reported count the scratch
buffer is allocated freshly, sized exactly to that count, and released
exactly once, after the data rows and before the sleep; in a cycle with
a zero count neither an allocation nor a release happens. -/
theorem buffer_lifecycle_amended :
    (∀ aps : List ApRecord, (cycleEvents aps).count Event.scanStart = 1) ∧
    (∀ aps : List ApRecord, 0 < aps.length →
      (cycleEvents aps).count (Event.alloc aps.length) = 1 ∧
      (∀ n, n ≠ aps.length → (cycleEvents aps).count (Event.alloc n) = 0) ∧
      (cycleEvents aps).count Event.free = 1 ∧
      (∃ pre, cycleEvents aps =
        pre ++ [Event.free, Event.log (separatorLine ++ "\n"), Event.delay 3000])) ∧
    (∀ aps : List ApRecord, aps.length = 0 →
      (cycleEvents aps).count Event.free = 0 ∧
      ∀ n, (cycleEvents aps).count (Event.alloc n) = 0) := by
  refine ⟨?_, ?_, ?_⟩
  · intro aps
    by_cases hpos : 0 < aps.length
    · rw [cycleEvents_pos aps hpos]
      have hmap := count_map_log_eq_zero (reportRows aps) Event.scanStart
        (fun s => by simp)
      simp [List.count_append, hmap, List.count_cons]
    · have h0 : aps = [] := List.length_eq_zero.mp (by omega)
      subst h0
      decide
  · intro aps hpos
    have hmapa : ∀ n, (( reportRows aps).map Event.log).count (Event.alloc n) = 0 :=
      fun n => count_map_log_eq_zero (reportRows aps) (Event.alloc n) (fun s => by simp)
    have hmapf := count_map_log_eq_zero (reportRows aps) Event.free (fun s => by simp)
    refine ⟨?_, ?_, ?_, ?_⟩
    · rw [cycleEvents_pos aps hpos]
      simp [List.count_append, hmapa, List.count_cons]
    · intro n hn
      rw [cycleEvents_pos aps hpos]
      simp [List.count_append, hmapa, List.count_cons, hn]
    · rw [cycleEvents_pos aps hpos]
      simp [List.count_append, hmapf, List.count_cons]
    · exact ⟨_, cycleEvents_pos aps hpos⟩
  · intro aps h0
    have h0' : aps = [] := List.length_eq_zero.mp h0
    subst h0'
    exact ⟨by decide, fun n => by
      rw [cycleEvents_zero]
      simp [List.count_cons]⟩

/-- Witness for Claim C5 (amended): a one-record cycle frees exactly
once and allocates a buffer of size 1 exactly once; the zero-record
cycle never frees. -/
theorem buffer_lifecycle_amended_witness :
    (cycleEvents [testRec1]).count Event.free = 1 ∧
    (cycleEvents [testRec1]).count (Event.alloc 1) = 1 ∧
    (cycleEvents []).count Event.free = 0 :=
  ⟨(buffer_lifecycle_amended.2.1 [testRec1] (by decide)).2.2.1,
   (buffer_lifecycle_amended.2.1 [testRec1] (by decide)).1,
   (buffer_lifecycle_amended.2.2 [] rfl).1⟩

/-- Claim C6: every ESP_ERROR_CHECK-guarded call is fatal: any failing
INIT call makes runInit abort carrying a non-zero code and no loop
event is ever produced (the loop never starts); inside a cycle, a
failing scan-start, count-fetch or record-fetch aborts at once with the
events so far and nothing more: no retry (one scan invocation at most),
no log line, no partial-result reporting after the failure point. -/
theorem fatal_error_policy :
    (∀ r : InitResults,
      (r.nvs_flash_init ≠ 0 ∨ r.esp_netif_init ≠ 0 ∨
       r.esp_event_loop_create_default ≠ 0 ∨ r.esp_wifi_init ≠ 0 ∨
       r.esp_wifi_set_mode ≠ 0 ∨ r.esp_wifi_start ≠ 0) →
      (∃ e, e ≠ 0 ∧ runInit r = Except.error e) ∧
      ∀ n drv, appTrace r n drv = []) ∧
    (∀ d : CycleDriver, d.scan_start ≠ 0 →
      cycleRun d = ([Event.scanStart], some d.scan_start)) ∧
    (∀ d : CycleDriver, d.scan_start = 0 → d.get_ap_num ≠ 0 →
      cycleRun d = ([Event.scanStart, Event.getApNum], some d.get_ap_num)) ∧
    (∀ d : CycleDriver, d.scan_start = 0 → d.get_ap_num = 0 →
      0 < d.aps.length → d.get_ap_records ≠ 0 →
      cycleRun d = ([Event.scanStart, Event.getApNum,
                     Event.alloc d.aps.length, Event.getRecords d.aps.length],
                    some d.get_ap_records)) := by
  refine ⟨?_, ?_, ?_, ?_⟩
  · intro r h
    have herr : ∃ e, e ≠ 0 ∧ runInit r = Except.error e := by
      unfold runInit
      split_ifs with h1 h2 h3 h4 h5 h6
      · exact ⟨_, h1, rfl⟩
      · exact ⟨_, h2, rfl⟩
      · exact ⟨_, h3, rfl⟩
      · exact ⟨_, h4, rfl⟩
      · exact ⟨_, h5, rfl⟩
      · exact ⟨_, h6, rfl⟩
      · rcases h with h | h | h | h | h | h <;> simp_all
    refine ⟨herr, ?_⟩
    obtain ⟨e, _, he⟩ := herr
    intro n drv
    simp [appTrace, he]
  · intro d h
    simp [cycleRun, h]
  · intro d h1 h2
    simp [cycleRun, h1, h2]
  · intro d h1 h2 h3 h4
    simp [cycleRun, h1, h2, h3, h4]

/-- Witness for Claim C6: a failed first INIT call yields an empty
program trace, and a failed scan-start ends the cycle after the single
scan invocation with no log line. -/
theorem fatal_error_policy_witness :
    appTrace ⟨1, 0, 0, 0, 0, 0⟩ 3 (fun _ => []) = [] ∧
    cycleRun ⟨5, 0, 0, []⟩ = ([Event.scanStart], some 5) :=
  ⟨(fatal_error_policy.1 ⟨1, 0, 0, 0, 0, 0⟩ (Or.inl (by decide))).2 3 (fun _ => []),
   fatal_error_policy.2.1 ⟨5, 0, 0, []⟩ (by decide)⟩

/-- Counterexample for Claim C7: the separator literal of the source
has exactly 92 dash characters, not 94. -/
theorem separator_length_counterexample :
    separatorLine.length = 92 ∧ ¬ separatorLine.length = 94 := by decide

/-- Claim C7 (amended): every separator line bounding the table (above
the column header, below it, and after the rows) is the same literal of
exactly 92 dash characters (the one after the rows followed by an extra
final newline), in every cycle. -/
theorem separator_92_amended :
    separatorLine = String.mk (List.replicate 92 '-') ∧
    ∀ aps : List ApRecord, ∃ pre mid,
      cycleEvents aps =
        pre ++ [Event.log (headerLine aps.length), Event.log separatorLine,
                Event.log columnHeader, Event.log separatorLine] ++
        mid ++ [Event.log (separatorLine ++ "\n"), Event.delay 3000] := by
  refine ⟨by decide, ?_⟩
  intro aps
  by_cases hpos : 0 < aps.length
  · refine ⟨[Event.scanStart, Event.getApNum,
             Event.alloc aps.length, Event.getRecords aps.length],
            (reportRows aps).map Event.log ++ [Event.free], ?_⟩
    rw [cycleEvents_pos aps hpos]
    simp
  · have h0 : aps = [] := List.length_eq_zero.mp (by omega)
    subst h0
    exact ⟨[Event.scanStart, Event.getApNum], [], by decide⟩

/-- Claim C8: every cycle ends with the timed 3000 ms delay; that delay
is the only suspension event of the cycle; and after any number of
completed cycles of a successfully initialized program the loop always
runs one more cycle (the trace after n+1 cycles extends the trace after
n cycles by the next full cycle) — it repeats forever, with no
cancellation event of any kind in the model. -/
theorem sleep_and_loop_spec :
    (∀ aps : List ApRecord, ∃ pre,
      cycleEvents aps = pre ++ [Event.delay 3000]) ∧
    (∀ aps : List ApRecord, (cycleEvents aps).countP isDelay = 1) ∧
    (∀ r : InitResults, ∀ n : Nat, ∀ drivers : Nat → List ApRecord,
      runInit r = Except.ok () →
      appTrace r (n + 1) drivers =
        appTrace r n drivers ++ cycleEvents (drivers n)) := by
  refine ⟨?_, ?_, ?_⟩
  · intro aps
    by_cases hpos : 0 < aps.length
    · refine ⟨[Event.scanStart, Event.getApNum,
               Event.alloc aps.length, Event.getRecords aps.length,
               Event.log (headerLine aps.length), Event.log separatorLine,
               Event.log columnHeader, Event.log separatorLine] ++
              (reportRows aps).map Event.log ++
              [Event.free, Event.log (separatorLine ++ "\n")], ?_⟩
      rw [cycleEvents_pos aps hpos]
      simp
    · have h0 : aps = [] := List.length_eq_zero.mp (by omega)
      subst h0
      exact ⟨[Event.scanStart, Event.getApNum,
              Event.log (headerLine 0), Event.log separatorLine,
              Event.log columnHeader, Event.log separatorLine,
              Event.log (separatorLine ++ "\n")], rfl⟩
  · intro aps
    by_cases hpos : 0 < aps.length
    · rw [cycleEvents_pos aps hpos]
      simp [List.countP_append, countP_isDelay_map_log, List.countP_cons, isDelay]
    · have h0 : aps = [] := List.length_eq_zero.mp (by omega)
      subst h0
      decide
  · intro r n drivers hok
    simp [appTrace, hok, List.range_succ]

/-- Witness for Claim C8: with a clean INIT and a driver returning no
records, the two-cycle trace is the one-cycle trace followed by one
more full cycle. -/
theorem sleep_and_loop_spec_witness :
    appTrace ⟨0, 0, 0, 0, 0, 0⟩ 2 (fun _ => []) =
      appTrace ⟨0, 0, 0, 0, 0, 0⟩ 1 (fun _ => []) ++ cycleEvents [] :=
  sleep_and_loop_spec.2.2 ⟨0, 0, 0, 0, 0, 0⟩ 1 (fun _ => []) rfl

/-- Claim C9: ssid_or_none, applied to a NULL pointer (modelled as
`none`), returns the "NONE" placeholder rather than dereferencing the
pointer; it is total over pointer inputs including NULL. -/
theorem ssid_null_safe :
    ssid_or_none none = noneBytes ∧
    String.mk (noneBytes.map Char.ofNat) = "NONE" :=
  ⟨rfl, rfl⟩

/-- Claim C10: a cycle whose driver reports a zero count performs no
allocation, no record-fetch call and no release, yet still emits the
"Found 0 networks" header and all three separator lines, with zero data
rows, before the 3000 ms sleep. -/
theorem zero_count_cycle (aps : List ApRecord) (h : aps.length = 0) :
    cycleEvents aps =
      [Event.scanStart, Event.getApNum,
       Event.log (headerLine 0), Event.log separatorLine,
       Event.log columnHeader, Event.log separatorLine,
       Event.log (separatorLine ++ "\n"), Event.delay 3000] ∧
    headerLine 0 = "Found 0 networks" ∧
    (∀ n, Event.alloc n ∉ cycleEvents aps) ∧
    (∀ n, Event.getRecords n ∉ cycleEvents aps) ∧
    Event.free ∉ cycleEvents aps := by
  have h0 : aps = [] := List.length_eq_zero.mp h
  subst h0
  refine ⟨cycleEvents_zero, rfl, ?_, ?_, ?_⟩
  · intro n hn
    rw [cycleEvents_zero] at hn
    simp at hn
  · intro n hn
    rw [cycleEvents_zero] at hn
    simp at hn
  · intro hn
    rw [cycleEvents_zero] at hn
    simp at hn

/-- Witness for Claim C10: the empty-driver cycle evaluates to exactly
the header, separators and delay, with no heap events. -/
theorem zero_count_cycle_witness :
    cycleEvents [] =
      [Event.scanStart, Event.getApNum,
       Event.log (headerLine 0), Event.log separatorLine,
       Event.log columnHeader, Event.log separatorLine,
       Event.log (separatorLine ++ "\n"), Event.delay 3000] :=
  (zero_count_cycle [] rfl).1

end WifiScan
